import Mathlib

/-! assume-spoke-role: hub-and-spoke credential chaining.

A shallow embedding of `hubspoke.GetSpokeCredentials` (src/hubspoke/functions.go),
of `runCommand` (src/cmd/run.go, src/run_command.go) and of the cobra `run`
command (src/cmd/run.go), together with the fragments of the Go standard
library, of go-faster/errors and of the AWS SDK for Go v2 that these functions
call.

Conventions.
* A Go pointer field (`*string`, `*time.Time`) is an `Option`.
* A Go `error` result is an `Option Error` (`none` is `nil`).
* A run-time panic is an explicit `Except Panic _` result.
* The STS service and the providers of base credentials are parameters
  (`Service`): every theorem holds for all of them.
-/

namespace AssumeSpokeRole

/-! ## Go standard library and go-faster/errors -/

namespace fmt

/-- Expansion of a format string over string operands, on characters: `%s`
consumes the next operand, `%%` is a percent sign, a `%s` without operand
prints as Go does (`%!s(MISSING)`), every other character is copied. The
format strings of this program use no other verb. -/
def sprintfChars : List Char → List String → List Char
  | [], _ => []
  | '%' :: '%' :: rest, args => '%' :: sprintfChars rest args
  | '%' :: 's' :: rest, a :: args => a.data ++ sprintfChars rest args
  | '%' :: 's' :: rest, [] => "%!s(MISSING)".data ++ sprintfChars rest []
  | c :: rest, args => c :: sprintfChars rest args

/-- Go `fmt.Sprintf` for string operands and the verbs `%s` and `%%`. -/
def Sprintf (format : String) (args : List String) : String :=
  String.mk (sprintfChars format.data args)

end fmt

namespace errors

/-- Go error values: a failure produced outside this program (by the SDK, the
STS service or a credential provider), known by its text, or an error wrapped
with a message by `errors.Wrap`. -/
inductive Error
  | foreign (text : String)
  | wrapped (message : String) (cause : Error)
  deriving DecidableEq, Repr

/-- Text of an error (`err.Error()`): a wrapped error prints its message, a
colon and the text of its cause. -/
def Error.Message : Error → String
  | .foreign text => text
  | .wrapped message cause => message ++ ": " ++ cause.Message

/-- `errors.Wrap(err, message)` of go-faster/errors for a non-nil `err`. -/
def Wrap (err : Error) (message : String) : Error :=
  .wrapped message err

/-- `errors.Unwrap`: the cause of a wrapped error. -/
def Unwrap : Error → Option Error
  | .foreign _ => none
  | .wrapped _ cause => some cause

end errors

open errors (Error)

namespace time

/-- A `time.Time` value, identified with the text that its `String` method
renders (`2006-01-02 15:04:05.999999999 -0700 MST`). -/
structure Time where
  text : String
  deriving DecidableEq, Repr

/-- `t.String()`. -/
def Time.String (t : Time) : String := t.text

end time

/-! ## AWS SDK for Go v2 -/

namespace types

/-- `sts/types.Credentials`: every field is a pointer. -/
structure Credentials where
  AccessKeyId : Option String := none
  Expiration : Option time.Time := none
  SecretAccessKey : Option String := none
  SessionToken : Option String := none
  deriving DecidableEq, Repr

end types

namespace stscreds

/-- `stscreds.AssumeRoleOptions`, the fields this program sets or the provider
reads: `Duration` is in seconds and `0` means unset. -/
structure AssumeRoleOptions where
  RoleARN : String
  RoleSessionName : String := ""
  Duration : Nat := 0
  ExternalID : Option String := none
  deriving DecidableEq, Repr

/-- `stscreds.DefaultDuration`, fifteen minutes, in seconds. -/
def DefaultDuration : Nat := 900

/-- `stscreds.ProviderName`. -/
def ProviderName : String := "AssumeRoleProvider"

end stscreds

namespace aws

/-- `aws.Credentials`: a resolved credential value, as used to sign a request. -/
structure Credentials where
  AccessKeyID : String
  SecretAccessKey : String
  SessionToken : String
  Source : String
  CanExpire : Bool
  Expires : time.Time
  deriving DecidableEq, Repr

mutual
/-- The values of `aws.Config.Credentials` in this program: `nil`, a provider
of base credentials resolved outside the program (environment, profile or
the metadata of the instance), or the cache over an assume-role provider,
`aws.NewCredentialsCache(stscreds.NewAssumeRoleProvider(client, roleARN, optFns))`,
which holds the options of the client it was given. -/
inductive CredentialsProvider
  | nil
  | base (name : String)
  | assumeRole (client : Config) (options : stscreds.AssumeRoleOptions)
  deriving DecidableEq, Repr
/-- `aws.Config`: the region, the retry budget and the credentials provider. -/
inductive Config
  | mk (Region : String) (RetryMaxAttempts : Nat) (Credentials : CredentialsProvider)
  deriving DecidableEq, Repr
end

/-- Field `Region`. -/
def Config.Region : Config → String
  | .mk region _ _ => region

/-- Field `RetryMaxAttempts`. -/
def Config.RetryMaxAttempts : Config → Nat
  | .mk _ retries _ => retries

/-- Field `Credentials`. -/
def Config.Credentials : Config → CredentialsProvider
  | .mk _ _ credentials => credentials

/-- Assignment `cfg.Credentials = p`. -/
def Config.setCredentials (cfg : Config) (p : CredentialsProvider) : Config :=
  .mk cfg.Region cfg.RetryMaxAttempts p

/-- The zero value `aws.Config{}`. -/
def Config.zero : Config := .mk "" 0 .nil

end aws

namespace sts

/-- `sts.AssumeRoleInput`, the fields set by this program or by the
assume-role provider; every other field stays `nil`. -/
structure AssumeRoleInput where
  RoleArn : Option String := none
  RoleSessionName : Option String := none
  DurationSeconds : Option Nat := none
  ExternalId : Option String := none
  deriving DecidableEq, Repr

/-- The credentials of a successful `AssumeRole` response: STS declares the
four members required, so a response carries all of them. -/
structure Issued where
  AccessKeyId : String
  SecretAccessKey : String
  SessionToken : String
  Expiration : time.Time
  deriving DecidableEq, Repr

/-- `response.Credentials` of a successful call. -/
def Issued.Credentials (c : Issued) : types.Credentials :=
  { AccessKeyId := some c.AccessKeyId, Expiration := some c.Expiration,
    SecretAccessKey := some c.SecretAccessKey, SessionToken := some c.SessionToken }

/-- One `AssumeRole` request as the STS service receives it: the options of
the client that sent it, the credentials that signed it and its parameters. -/
structure Request where
  client : aws.Config
  signer : aws.Credentials
  params : AssumeRoleInput
  deriving DecidableEq, Repr

/-- `sts.NewFromConfig(cfg)`: the client holds a copy of the configuration. -/
def NewFromConfig (cfg : aws.Config) : aws.Config := cfg

end sts

/-- The world outside the program. `resolve` is the outcome of retrieving from
a provider of base credentials (`none` for a `nil` provider). `AssumeRole` is
the answer of the STS service, reached through the transport and its retry
policy, to a request, given the requests it received before.
`defaultSessionName` is the name the assume-role provider makes up when none is
set (`aws-go-sdk-` followed by the clock in nanoseconds). -/
structure Service where
  resolve : Option String → Except Error aws.Credentials
  AssumeRole : List sts.Request → sts.Request → Except Error sts.Issued
  defaultSessionName : String

namespace stscreds

/-- `stscreds.NewAssumeRoleProvider(client, roleARN, optFn)` under
`aws.NewCredentialsCache`: the options start from the client and the role ARN
and the option function is applied to them. Nothing is requested yet. -/
def NewAssumeRoleProvider (client : aws.Config) (roleARN : String)
    (optFn : AssumeRoleOptions → AssumeRoleOptions) : aws.CredentialsProvider :=
  .assumeRole client (optFn { RoleARN := roleARN })

/-- The request parameters `AssumeRoleProvider.Retrieve` builds from its
options: an empty session name and an unset duration get their defaults. -/
def retrieveInput (svc : Service) (o : AssumeRoleOptions) : sts.AssumeRoleInput :=
  { RoleArn := some o.RoleARN,
    RoleSessionName :=
      some (if o.RoleSessionName.length = 0 then svc.defaultSessionName else o.RoleSessionName),
    DurationSeconds := some (if o.Duration = 0 then DefaultDuration else o.Duration),
    ExternalId := o.ExternalID }

/-- The `aws.Credentials` that `AssumeRoleProvider.Retrieve` returns for a
successful response. -/
def credentialsOf (c : sts.Issued) : aws.Credentials :=
  { AccessKeyID := c.AccessKeyId, SecretAccessKey := c.SecretAccessKey,
    SessionToken := c.SessionToken, Source := ProviderName, CanExpire := true,
    Expires := c.Expiration }

end stscreds

mutual
/-- First retrieval from a credentials provider, threading the log of the
requests STS has received: a base provider is resolved outside, an assume-role
provider calls `AssumeRole` on its client. -/
def aws.CredentialsProvider.Retrieve (svc : Service) :
    aws.CredentialsProvider → List sts.Request → Except Error aws.Credentials × List sts.Request
  | .nil, log => (svc.resolve none, log)
  | .base name, log => (svc.resolve (some name), log)
  | .assumeRole client options, log =>
    match sts.Client.AssumeRole svc client (stscreds.retrieveInput svc options) log with
    | (.error err, log1) => (.error err, log1)
    | (.ok out, log1) => (.ok (stscreds.credentialsOf out), log1)
/-- The client operation `client.AssumeRole(ctx, params)`: the client first
retrieves credentials from the provider of its configuration; if that fails the
operation fails with that failure and nothing is sent; otherwise the request is
signed with them and sent. The texts the SDK puts around a failure (the name of
the operation, the failed refresh of cached credentials) are left out. -/
def sts.Client.AssumeRole (svc : Service) :
    aws.Config → sts.AssumeRoleInput → List sts.Request → Except Error sts.Issued × List sts.Request
  | .mk region retries credentials, params, log =>
    match aws.CredentialsProvider.Retrieve svc credentials log with
    | (.error err, log1) => (.error err, log1)
    | (.ok signer, log1) =>
      (svc.AssumeRole log1 ⟨.mk region retries credentials, signer, params⟩,
        log1 ++ [⟨.mk region retries credentials, signer, params⟩])
end

/-! ## Package hubspoke (src/hubspoke/functions.go) -/

namespace hubspoke

/-- `SpokeCredentialsInput`. `Config` is the configuration the pointer field
refers to; the `Context` field carries no data and is left out. -/
structure SpokeCredentialsInput where
  Config : aws.Config
  HubAccountID : String
  SpokeAccountID : String
  HubRoleName : String
  SpokeRoleName : String
  ExternalID : String
  SessionString : String
  deriving DecidableEq, Repr

/-- What a call of `GetSpokeCredentials` leaves behind: the three values it
returns, the configuration `input.Config` points to as it is after the call,
and the requests STS received during the call, in order. -/
structure Outcome where
  credentials : types.Credentials
  config : aws.Config
  err : Option Error
  inputConfig : aws.Config
  requests : List sts.Request
  deriving DecidableEq, Repr

/-- Line 56: `hubRoleARN`. -/
def hubRoleARN (input : SpokeCredentialsInput) : String :=
  fmt.Sprintf "arn:aws:iam::%s:role/%s" [input.HubAccountID, input.HubRoleName]

/-- Line 57: `spokeRoleARN`. -/
def spokeRoleARN (input : SpokeCredentialsInput) : String :=
  fmt.Sprintf "arn:aws:iam::%s:role/%s" [input.SpokeAccountID, input.SpokeRoleName]

/-- Lines 62 to 68: the option function given to the hub provider. -/
def hubOptions (input : SpokeCredentialsInput)
    (o : stscreds.AssumeRoleOptions) : stscreds.AssumeRoleOptions :=
  let sessionName := input.SessionString
  let o := { o with RoleSessionName := sessionName }
  if input.ExternalID ≠ "" then { o with ExternalID := some input.ExternalID } else o

/-- Line 60: `stsHubClient`, a client over the configuration as the caller
supplied it. -/
def stsHubClient (input : SpokeCredentialsInput) : aws.Config :=
  sts.NewFromConfig input.Config

/-- Lines 61 to 69: the provider assigned to `input.Config.Credentials`. -/
def hubCredentials (input : SpokeCredentialsInput) : aws.CredentialsProvider :=
  stscreds.NewAssumeRoleProvider (stsHubClient input) (hubRoleARN input) (hubOptions input)

/-- Line 72: `stsSpokeClient`, a client over the configuration after the
assignment of lines 61 to 69. -/
def stsSpokeClient (input : SpokeCredentialsInput) : aws.Config :=
  sts.NewFromConfig (input.Config.setCredentials (hubCredentials input))

/-- Lines 74 to 81: `assumeRoleInput`. -/
def assumeRoleInput (input : SpokeCredentialsInput) : sts.AssumeRoleInput :=
  let sessionName := input.SessionString
  let assumeRoleInput : sts.AssumeRoleInput :=
    { RoleArn := some (spokeRoleARN input),
      RoleSessionName := some (fmt.Sprintf "%s-%s" [input.SpokeAccountID, sessionName]) }
  if input.ExternalID ≠ "" then
    { assumeRoleInput with ExternalId := some input.ExternalID }
  else assumeRoleInput

/-- Lines 93 to 99: the option function given to the spoke provider. -/
def spokeOptions (input : SpokeCredentialsInput)
    (o : stscreds.AssumeRoleOptions) : stscreds.AssumeRoleOptions :=
  let sessionName := input.SessionString
  let o := { o with RoleSessionName := fmt.Sprintf "%s-%s" [input.SpokeAccountID, sessionName] }
  if input.ExternalID ≠ "" then { o with ExternalID := some input.ExternalID } else o

/-- Lines 92 to 100: the provider assigned to `input.Config.Credentials` after
a successful spoke call. -/
def spokeCredentials (input : SpokeCredentialsInput) : aws.CredentialsProvider :=
  stscreds.NewAssumeRoleProvider (stsSpokeClient input) (spokeRoleARN input) (spokeOptions input)

/-- `GetSpokeCredentials`, lines 50 to 103. -/
def GetSpokeCredentials (svc : Service) (input : SpokeCredentialsInput) : Outcome :=
  let emptyCredentials : types.Credentials := {}
  let emptyConfig : aws.Config := aws.Config.zero
  let config1 := input.Config.setCredentials (hubCredentials input)
  match sts.Client.AssumeRole svc (stsSpokeClient input) (assumeRoleInput input) [] with
  | (.error err, log) =>
    { credentials := emptyCredentials
      config := emptyConfig
      err := some (errors.Wrap err (fmt.Sprintf "error assuming '%s' role in account %s"
        [spokeRoleARN input, input.SpokeAccountID]))
      inputConfig := config1
      requests := log }
  | (.ok response, log) =>
    let config2 := config1.setCredentials (spokeCredentials input)
    { credentials := response.Credentials
      config := config2
      err := none
      inputConfig := config2
      requests := log }

end hubspoke

/-! ## Go run time and os/exec -/

/-- A run-time panic of the Go program. -/
inductive Panic
  | indexOutOfRange (index length : Nat)
  | nilDereference
  deriving DecidableEq, Repr

namespace exec

/-- `exec.Cmd`, the fields `runCommand` fills through `exec.Command` and by
assignment: `Path` is the name as given (the search in PATH comes later),
`Args` starts with the name. -/
structure Cmd where
  Path : String
  Args : List String
  Env : List String := []
  deriving DecidableEq, Repr

/-- `exec.Command(name, arg...)`. -/
def Command (name : String) (arg : List String) : Cmd :=
  { Path := name, Args := name :: arg }

/-- An environment entry `key=value` cut at its first `=`; `none` when it has
no `=`. -/
def cut : List Char → Option (List Char × List Char)
  | [] => none
  | c :: rest =>
    if c = '=' then some ([], rest) else (cut rest).map fun kv => (c :: kv.1, kv.2)

/-- The value an entry gives to the variable `name`; `none` when the entry is
for another variable or has no `=`. -/
def entryValue (name : String) (kv : String) : Option String :=
  match cut kv.data with
  | some (key, value) => if key = name.data then some (String.mk value) else none
  | none => none

/-- The value of the variable `name` in a process started with `cmd.Env = env`:
of the entries with the same key, os/exec uses only the last one in the slice.
Keys are compared as they are written. -/
def Getenv (env : List String) (name : String) : Option String :=
  env.reverse.findSome? (entryValue name)

end exec

/-! ## Package cmd (src/cmd/run.go); `runCommand` of src/run_command.go is the same text -/

namespace cmd

/-- `runCommand`, lines 169 to 180: the command as it is when `cmd.Run()` is
called. `environ` is `os.Environ()`. The standard streams are the ones of the
parent; an error of `cmd.Run()` is printed and not returned. -/
def runCommand (environ : List String) (creds : types.Credentials) (args : List String) :
    Except Panic exec.Cmd :=
  match args with
  | [] => .error (.indexOutOfRange 0 0)
  | name :: arg =>
    let cmd := exec.Command name arg
    match creds.AccessKeyId, creds.SecretAccessKey, creds.SessionToken, creds.Expiration with
    | some accessKeyId, some secretAccessKey, some sessionToken, some expiration =>
      .ok { cmd with
        Env := environ ++
          [fmt.Sprintf "AWS_ACCESS_KEY_ID=%s" [accessKeyId],
           fmt.Sprintf "AWS_SECRET_ACCESS_KEY=%s" [secretAccessKey],
           fmt.Sprintf "AWS_SECURITY_TOKEN=%s" [sessionToken],
           fmt.Sprintf "AWS_SESSION_TOKEN=%s" [sessionToken],
           fmt.Sprintf "AWS_SESSION_EXPIRATION=%s" [expiration.String]] }
    | _, _, _, _ => .error .nilDereference

/-- The package variables of lines 42 to 47, read from the environment when the
package is initialised; `os.Getenv` reads an unset variable as the empty string. -/
structure Defaults where
  externalID : String
  hubAccount : String
  hubRole : String
  sessionString : String
  spokeAccount : String
  spokeRole : String
  deriving DecidableEq, Repr

/-- A command line of `run`: for each flag the value given (`none` when the
flag does not occur) and the arguments that follow the flags. -/
structure CommandLine where
  externalID : Option String
  hubAccount : Option String
  spokeAccount : Option String
  hubRole : Option String
  spokeRole : Option String
  sessionString : Option String
  args : List String
  deriving DecidableEq, Repr

/-- The flag variables of lines 35 to 40 after the command line is parsed. -/
structure Flags where
  fExternalID : String
  fHubAccount : String
  fHubRole : String
  fSessionString : String
  fSpokeAccount : String
  fSpokeRole : String
  deriving DecidableEq, Repr

/-- Lines 90 to 136: each flag has the package variable as its default. -/
def parseFlags (d : Defaults) (c : CommandLine) : Flags :=
  { fExternalID := c.externalID.getD d.externalID
    fHubAccount := c.hubAccount.getD d.hubAccount
    fHubRole := c.hubRole.getD d.hubRole
    fSessionString := c.sessionString.getD d.sessionString
    fSpokeAccount := c.spokeAccount.getD d.spokeAccount
    fSpokeRole := c.spokeRole.getD d.spokeRole }

/-- Lines 138 to 166 of `init`: the flags marked required, those whose package
variable is empty. -/
def requiredFlags (d : Defaults) : List String :=
  (if d.hubAccount = "" then ["hub-account"] else []) ++
  (if d.hubRole = "" then ["hub-role"] else []) ++
  (if d.spokeAccount = "" then ["spoke-account"] else []) ++
  (if d.spokeRole = "" then ["spoke-role"] else [])

/-- The names of the flags that occur on a command line. -/
def CommandLine.given (c : CommandLine) : List String :=
  (if c.externalID.isSome then ["external-id"] else []) ++
  (if c.hubAccount.isSome then ["hub-account"] else []) ++
  (if c.hubRole.isSome then ["hub-role"] else []) ++
  (if c.sessionString.isSome then ["session-string"] else []) ++
  (if c.spokeAccount.isSome then ["spoke-account"] else []) ++
  (if c.spokeRole.isSome then ["spoke-role"] else [])

/-- The check cobra makes before it calls `Run`: the required flags that do not
occur on the command line. -/
def missingFlags (d : Defaults) (c : CommandLine) : List String :=
  (requiredFlags d).filter fun name => name ∉ c.given

/-- How an execution of the `run` command ends: cobra refuses the command line
(`Execute` then exits with status 1), `exiterrorf.ExitErrorf` ends the process,
`runCommand` panics, or `runCommand` runs the command. The last three carry the
requests STS received. -/
inductive Exit
  | usage (err : Error)
  | fatal (err : Error) (requests : List sts.Request)
  | panicked (p : Panic) (requests : List sts.Request)
  | ran (cmd : exec.Cmd) (requests : List sts.Request)
  deriving DecidableEq, Repr

/-- The `Run` function of `runCmd`, lines 57 to 83. `awsConfig` is the result of
`awsutils.GetAWSConfig`. -/
def Run (svc : Service) (awsConfig : Except Error aws.Config) (environ : List String)
    (f : Flags) (args : List String) : Exit :=
  match awsConfig with
  | .error err =>
    .fatal (errors.Wrap err "could not generate a valid AWS configuration object") []
  | .ok config =>
    let o := hubspoke.GetSpokeCredentials svc
      { Config := config
        HubAccountID := f.fHubAccount
        SpokeAccountID := f.fSpokeAccount
        HubRoleName := f.fHubRole
        SpokeRoleName := f.fSpokeRole
        ExternalID := f.fExternalID
        SessionString := f.fSessionString }
    match o.err with
    | some err =>
      .fatal (errors.Wrap err
        "could not generate valid AWS credentials for the 'spoke' account") o.requests
    | none =>
      match runCommand environ o.credentials args with
      | .error p => .panicked p o.requests
      | .ok cmd => .ran cmd o.requests

/-- Execution of `run` by cobra: the required flags are checked, then `Run` is
called with the parsed flags and the arguments. -/
def Execute (svc : Service) (awsConfig : Except Error aws.Config) (environ : List String)
    (d : Defaults) (c : CommandLine) : Exit :=
  if missingFlags d c = [] then Run svc awsConfig environ (parseFlags d c) c.args
  else .usage (.foreign ("required flag(s) \"" ++ String.intercalate "\", \"" (missingFlags d c)
    ++ "\" not set"))

end cmd

/-! ## Vocabulary of the statements -/

/-- A text contains another one as a contiguous part. -/
def Mentions (text part : String) : Prop := part.data <:+: text.data

instance (text part : String) : Decidable (Mentions text part) :=
  inferInstanceAs (Decidable (part.data <:+: text.data))

namespace aws

mutual
/-- Number of assume-role providers stacked in a provider. -/
def CredentialsProvider.depth : CredentialsProvider → Nat
  | .nil => 0
  | .base _ => 0
  | .assumeRole client _ => client.depth + 1
/-- Depth of the provider of a configuration. -/
def Config.depth : Config → Nat
  | .mk _ _ credentials => credentials.depth
end

end aws


namespace hubspoke

/-- The parameters of the request the hub provider sends when it is first
asked for credentials. -/
def hubParams (svc : Service) (input : SpokeCredentialsInput) : sts.AssumeRoleInput :=
  stscreds.retrieveInput svc (hubOptions input { RoleARN := hubRoleARN input })

/-- The requests of an outcome that a given client sent. -/
def Outcome.sentBy (o : Outcome) (client : aws.Config) : List sts.Request :=
  o.requests.filter (fun q => q.client = client)

end hubspoke

/-! ## Scenarios -/

namespace Scenario

/-- An expiration time. -/
def expiry : time.Time := ⟨"2026-01-01 00:00:00 +0000 UTC"⟩

/-- The credentials the base provider resolves to. -/
def baseCredentials : aws.Credentials :=
  ⟨"AKIABASE", "base-secret", "", "EnvConfigCredentials", false, expiry⟩

/-- The credentials STS issues for the hub role. -/
def hubIssued : sts.Issued := ⟨"ASIAHUB", "hub-secret", "hub-token", expiry⟩

/-- The credentials STS issues for the spoke role. -/
def spokeIssued : sts.Issued := ⟨"ASIASPOKE", "spoke-secret", "spoke-token", expiry⟩

/-- The caller's configuration. -/
def config : aws.Config := .mk "us-east-1" 3 (.base "environment")

/-- The request of the end-to-end scenario. -/
def request : hubspoke.SpokeCredentialsInput :=
  { Config := config
    HubAccountID := "999999999999"
    SpokeAccountID := "888888888888"
    HubRoleName := "robot-hub-role"
    SpokeRoleName := "robot-spoke-role"
    ExternalID := "this-is-my-robot"
    SessionString := "sess1" }

/-- The same request without a hub account. -/
def requestNoHubAccount : hubspoke.SpokeCredentialsInput :=
  { request with HubAccountID := "" }

/-- A service that grants both roles: requests signed by the base credentials
get the hub credentials, the others the spoke credentials. -/
def granted : Service :=
  { resolve := fun _ => .ok baseCredentials
    AssumeRole := fun _ q => if q.signer = baseCredentials then .ok hubIssued else .ok spokeIssued
    defaultSessionName := "aws-go-sdk-1" }

/-- A service that denies every request signed by the base credentials. -/
def hubDenied : Service :=
  { granted with
    AssumeRole := fun _ q =>
      if q.signer = baseCredentials then .error (.foreign "AccessDenied") else .ok spokeIssued }

/-- A service that grants the hub role and denies the spoke role. -/
def spokeDenied : Service :=
  { granted with
    AssumeRole := fun _ q =>
      if q.signer = baseCredentials then .ok hubIssued else .error (.foreign "AccessDenied") }

/-- No `ASSUME_ROLE_*` variable is set. -/
def noDefaults : cmd.Defaults := ⟨"", "", "", "", "", ""⟩

/-- The command line of the end-to-end scenario, without a hub account flag,
followed by `aws sts get-caller-identity`. -/
def lineNoHubAccount : cmd.CommandLine :=
  { externalID := some "this-is-my-robot"
    hubAccount := none
    spokeAccount := some "888888888888"
    hubRole := some "robot-hub-role"
    spokeRole := some "robot-spoke-role"
    sessionString := some "sess1"
    args := ["aws", "sts", "get-caller-identity"] }

/-- The command line of the end-to-end scenario with no command after the
flags. -/
def lineNoCommand : cmd.CommandLine :=
  { lineNoHubAccount with hubAccount := some "999999999999", args := [] }

end Scenario

/-! ## Lemmas -/

namespace fmt

theorem Sprintf_arn (account role : String) :
    Sprintf "arn:aws:iam::%s:role/%s" [account, role]
      = "arn:aws:iam::" ++ account ++ ":role/" ++ role := by
  apply String.ext
  simp [Sprintf, sprintfChars, String.data_append]

theorem Sprintf_session (account session : String) :
    Sprintf "%s-%s" [account, session] = account ++ "-" ++ session := by
  apply String.ext
  simp [Sprintf, sprintfChars, String.data_append]

theorem Sprintf_assuming (arn account : String) :
    Sprintf "error assuming '%s' role in account %s" [arn, account]
      = "error assuming '" ++ arn ++ "' role in account " ++ account := by
  apply String.ext
  simp [Sprintf, sprintfChars, String.data_append]

end fmt

mutual
theorem Retrieve_log (svc : Service) : ∀ (p : aws.CredentialsProvider) (log : List sts.Request),
    ∃ new, (p.Retrieve svc log).2 = log ++ new ∧ ∀ q ∈ new, q.client.depth < p.depth
  | .nil, log => ⟨[], by simp [aws.CredentialsProvider.Retrieve]⟩
  | .base _, log => ⟨[], by simp [aws.CredentialsProvider.Retrieve]⟩
  | .assumeRole client options, log => by
    obtain ⟨new, h1, h2⟩ := AssumeRole_log svc client (stscreds.retrieveInput svc options) log
    refine ⟨new, ?_, ?_⟩
    · rw [aws.CredentialsProvider.Retrieve]
      split <;> simp_all
    · intro q hq
      have := h2 q hq
      simp [aws.CredentialsProvider.depth]
      omega
theorem AssumeRole_log (svc : Service) : ∀ (c : aws.Config) (params : sts.AssumeRoleInput)
    (log : List sts.Request),
    ∃ new, (sts.Client.AssumeRole svc c params log).2 = log ++ new ∧
      ∀ q ∈ new, q.client.depth ≤ c.depth
  | .mk region retries credentials, params, log => by
    obtain ⟨new, h1, h2⟩ := Retrieve_log svc credentials log
    rw [sts.Client.AssumeRole]
    split
    · refine ⟨new, by simp_all, ?_⟩
      intro q hq
      have := h2 q hq
      simp [aws.Config.depth]
      omega
    · rename_i signer log1 heq
      refine ⟨new ++ [⟨.mk region retries credentials, signer, params⟩], by simp_all, ?_⟩
      intro q hq
      rcases List.mem_append.1 hq with hq | hq
      · have := h2 q hq
        simp [aws.Config.depth]
        omega
      · simp at hq
        subst hq
        simp [aws.Config.depth]
end

namespace hubspoke

theorem spoke_call_eq (svc : Service) (input : SpokeCredentialsInput) :
    sts.Client.AssumeRole svc (stsSpokeClient input) (assumeRoleInput input) [] =
      match input.Config.Credentials.Retrieve svc [] with
      | (.error err, pre) => (.error err, pre)
      | (.ok signer, pre) =>
        match svc.AssumeRole pre ⟨stsHubClient input, signer, hubParams svc input⟩ with
        | .error err => (.error err, pre ++ [⟨stsHubClient input, signer, hubParams svc input⟩])
        | .ok hub =>
          (svc.AssumeRole (pre ++ [⟨stsHubClient input, signer, hubParams svc input⟩])
              ⟨stsSpokeClient input, stscreds.credentialsOf hub, assumeRoleInput input⟩,
            pre ++ [⟨stsHubClient input, signer, hubParams svc input⟩,
              ⟨stsSpokeClient input, stscreds.credentialsOf hub, assumeRoleInput input⟩]) := by
  rcases input with ⟨⟨region, retries, credentials⟩, ha, sa, hr, sr, ex, ss⟩
  simp only [stsSpokeClient, sts.NewFromConfig, aws.Config.setCredentials, hubCredentials,
    stscreds.NewAssumeRoleProvider, stsHubClient, aws.Config.Region, aws.Config.RetryMaxAttempts,
    aws.Config.Credentials, hubParams]
  rw [sts.Client.AssumeRole, aws.CredentialsProvider.Retrieve, sts.Client.AssumeRole]
  rcases h : aws.CredentialsProvider.Retrieve svc credentials [] with ⟨r | signer, pre⟩
  · simp
  · simp only []
    rcases h2 : svc.AssumeRole pre _ with e | hub
    · simp
    · simp

end hubspoke

namespace hubspoke

theorem hubRoleARN_eq (input : SpokeCredentialsInput) :
    hubRoleARN input = "arn:aws:iam::" ++ input.HubAccountID ++ ":role/" ++ input.HubRoleName :=
  fmt.Sprintf_arn _ _

theorem spokeRoleARN_eq (input : SpokeCredentialsInput) :
    spokeRoleARN input
      = "arn:aws:iam::" ++ input.SpokeAccountID ++ ":role/" ++ input.SpokeRoleName :=
  fmt.Sprintf_arn _ _

theorem assumeRoleInput_eq (input : SpokeCredentialsInput) :
    assumeRoleInput input =
      { RoleArn := some ("arn:aws:iam::" ++ input.SpokeAccountID ++ ":role/"
          ++ input.SpokeRoleName)
        RoleSessionName := some (input.SpokeAccountID ++ "-" ++ input.SessionString)
        DurationSeconds := none
        ExternalId := if input.ExternalID = "" then none else some input.ExternalID } := by
  unfold assumeRoleInput
  simp only [spokeRoleARN_eq, fmt.Sprintf_session]
  by_cases h : input.ExternalID = "" <;> simp [h]

theorem hubCredentials_eq (input : SpokeCredentialsInput) :
    hubCredentials input = .assumeRole input.Config
      { RoleARN := "arn:aws:iam::" ++ input.HubAccountID ++ ":role/" ++ input.HubRoleName
        RoleSessionName := input.SessionString
        Duration := 0
        ExternalID := if input.ExternalID = "" then none else some input.ExternalID } := by
  unfold hubCredentials stscreds.NewAssumeRoleProvider hubOptions stsHubClient sts.NewFromConfig
  simp only [hubRoleARN_eq]
  by_cases h : input.ExternalID = "" <;> simp [h]

theorem hubParams_eq (svc : Service) (input : SpokeCredentialsInput) :
    hubParams svc input =
      { RoleArn := some ("arn:aws:iam::" ++ input.HubAccountID ++ ":role/" ++ input.HubRoleName)
        RoleSessionName := some (if input.SessionString.length = 0 then svc.defaultSessionName
          else input.SessionString)
        DurationSeconds := some 900
        ExternalId := if input.ExternalID = "" then none else some input.ExternalID } := by
  unfold hubParams stscreds.retrieveInput hubOptions
  simp only [hubRoleARN_eq]
  by_cases h : input.ExternalID = "" <;> simp [h, stscreds.DefaultDuration]

theorem stsHubClient_depth (input : SpokeCredentialsInput) :
    (stsHubClient input).depth = input.Config.Credentials.depth := by
  rcases input with ⟨⟨region, retries, credentials⟩, ha, sa, hr, sr, ex, ss⟩
  simp [stsHubClient, sts.NewFromConfig, aws.Config.depth, aws.Config.Credentials]

theorem stsSpokeClient_depth (input : SpokeCredentialsInput) :
    (stsSpokeClient input).depth = input.Config.Credentials.depth + 1 := by
  rcases input with ⟨⟨region, retries, credentials⟩, ha, sa, hr, sr, ex, ss⟩
  simp [stsSpokeClient, sts.NewFromConfig, aws.Config.depth, aws.Config.setCredentials,
    hubCredentials, stscreds.NewAssumeRoleProvider, stsHubClient, aws.CredentialsProvider.depth,
    aws.Config.Credentials]

theorem stsHubClient_ne_stsSpokeClient (input : SpokeCredentialsInput) :
    stsHubClient input ≠ stsSpokeClient input := by
  intro h
  have := congrArg aws.Config.depth h
  rw [stsHubClient_depth, stsSpokeClient_depth] at this
  omega

/-- The requests made while the base credentials are resolved come from clients
below the hub client. -/
theorem base_requests (svc : Service) (input : SpokeCredentialsInput) :
    ∀ q ∈ (input.Config.Credentials.Retrieve svc []).2,
      q.client ≠ stsHubClient input ∧ q.client ≠ stsSpokeClient input := by
  obtain ⟨new, h1, h2⟩ := Retrieve_log svc input.Config.Credentials []
  intro q hq
  rw [h1] at hq
  have hlt := h2 q (by simpa using hq)
  constructor
  · intro h
    rw [h, stsHubClient_depth] at hlt
    omega
  · intro h
    rw [h, stsSpokeClient_depth] at hlt
    omega

theorem filter_base_hub (svc : Service) (input : SpokeCredentialsInput) :
    (input.Config.Credentials.Retrieve svc []).2.filter
      (fun q => decide (q.client = stsHubClient input)) = [] := by
  rw [List.filter_eq_nil_iff]
  intro q hq
  simpa using (base_requests svc input q hq).1

theorem filter_base_spoke (svc : Service) (input : SpokeCredentialsInput) :
    (input.Config.Credentials.Retrieve svc []).2.filter
      (fun q => decide (q.client = stsSpokeClient input)) = [] := by
  rw [List.filter_eq_nil_iff]
  intro q hq
  simpa using (base_requests svc input q hq).2

/-- The message `GetSpokeCredentials` wraps a failure with. -/
theorem wrap_message (input : SpokeCredentialsInput) :
    fmt.Sprintf "error assuming '%s' role in account %s"
        [spokeRoleARN input, input.SpokeAccountID]
      = "error assuming 'arn:aws:iam::" ++ input.SpokeAccountID ++ ":role/"
          ++ input.SpokeRoleName ++ "' role in account " ++ input.SpokeAccountID := by
  rw [fmt.Sprintf_assuming, spokeRoleARN_eq]
  apply String.ext
  simp [String.data_append]

/-- Outcome when the client operation of line 83 fails. -/
theorem outcome_of_error (svc : Service) (input : SpokeCredentialsInput) (cause : Error)
    (log : List sts.Request)
    (h : sts.Client.AssumeRole svc (stsSpokeClient input) (assumeRoleInput input) []
      = (.error cause, log)) :
    GetSpokeCredentials svc input =
      { credentials := {}
        config := aws.Config.zero
        err := some (.wrapped ("error assuming 'arn:aws:iam::" ++ input.SpokeAccountID ++ ":role/"
          ++ input.SpokeRoleName ++ "' role in account " ++ input.SpokeAccountID) cause)
        inputConfig := input.Config.setCredentials (hubCredentials input)
        requests := log } := by
  unfold GetSpokeCredentials
  simp only [h, wrap_message, errors.Wrap]

/-- Outcome when the client operation of line 83 succeeds. -/
theorem outcome_of_ok (svc : Service) (input : SpokeCredentialsInput) (response : sts.Issued)
    (log : List sts.Request)
    (h : sts.Client.AssumeRole svc (stsSpokeClient input) (assumeRoleInput input) []
      = (.ok response, log)) :
    GetSpokeCredentials svc input =
      { credentials := response.Credentials
        config := (input.Config.setCredentials (hubCredentials input)).setCredentials
          (spokeCredentials input)
        err := none
        inputConfig := (input.Config.setCredentials (hubCredentials input)).setCredentials
          (spokeCredentials input)
        requests := log } := by
  unfold GetSpokeCredentials
  simp only [h]

theorem requests_eq (svc : Service) (input : SpokeCredentialsInput) :
    (GetSpokeCredentials svc input).requests
      = (sts.Client.AssumeRole svc (stsSpokeClient input) (assumeRoleInput input) []).2 := by
  rcases h : sts.Client.AssumeRole svc (stsSpokeClient input) (assumeRoleInput input) []
    with ⟨e | r, log⟩
  · rw [outcome_of_error svc input e log h]
  · rw [outcome_of_ok svc input r log h]

end hubspoke

theorem Mentions_middle (a part b : String) : Mentions (a ++ part ++ b) part :=
  ⟨a.data, b.data, by simp [String.data_append]⟩

namespace fmt

theorem Sprintf_access_key (value : String) :
    Sprintf "AWS_ACCESS_KEY_ID=%s" [value] = "AWS_ACCESS_KEY_ID" ++ "=" ++ value := by
  apply String.ext
  simp [Sprintf, sprintfChars, String.data_append]

theorem Sprintf_secret_key (value : String) :
    Sprintf "AWS_SECRET_ACCESS_KEY=%s" [value] = "AWS_SECRET_ACCESS_KEY" ++ "=" ++ value := by
  apply String.ext
  simp [Sprintf, sprintfChars, String.data_append]

theorem Sprintf_security_token (value : String) :
    Sprintf "AWS_SECURITY_TOKEN=%s" [value] = "AWS_SECURITY_TOKEN" ++ "=" ++ value := by
  apply String.ext
  simp [Sprintf, sprintfChars, String.data_append]

theorem Sprintf_session_token (value : String) :
    Sprintf "AWS_SESSION_TOKEN=%s" [value] = "AWS_SESSION_TOKEN" ++ "=" ++ value := by
  apply String.ext
  simp [Sprintf, sprintfChars, String.data_append]

theorem Sprintf_session_expiration (value : String) :
    Sprintf "AWS_SESSION_EXPIRATION=%s" [value] = "AWS_SESSION_EXPIRATION" ++ "=" ++ value := by
  apply String.ext
  simp [Sprintf, sprintfChars, String.data_append]

end fmt

namespace exec

theorem cut_entry (key value : List Char) (h : '=' ∉ key) :
    cut (key ++ '=' :: value) = some (key, value) := by
  induction key with
  | nil => simp [cut]
  | cons c rest ih =>
    have hc : c ≠ '=' := fun hc => h (by simp [hc])
    have hr : '=' ∉ rest := fun hr => h (by simp [hr])
    simp [cut, hc, ih hr]

/-- The value an entry `key=value` gives to a variable. -/
theorem entryValue_entry (name key value : String) (h : '=' ∉ key.data) :
    entryValue name (key ++ "=" ++ value) = if key = name then some value else none := by
  unfold entryValue
  have hd : (key ++ "=" ++ value).data = key.data ++ '=' :: value.data := by
    simp [String.data_append]
  rw [hd, cut_entry key.data value.data h]
  by_cases hk : key = name
  · simp [hk]
  · have : key.data ≠ name.data := fun hh => hk (String.ext hh)
    simp [hk, this]

/-- Entries appended to an environment take precedence, the last one first. -/
theorem Getenv_append (env added : List String) (name : String) :
    Getenv (env ++ added) name = (Getenv added name).or (Getenv env name) := by
  unfold Getenv
  rw [List.reverse_append, List.findSome?_append]

theorem Getenv_cons (kv : String) (env : List String) (name : String) :
    Getenv (kv :: env) name = (Getenv env name).or (entryValue name kv) := by
  unfold Getenv
  rw [List.reverse_cons, List.findSome?_append]
  simp [List.findSome?]
  cases entryValue name kv <;> rfl

end exec

namespace hubspoke

/-- The requests of a call, by the outcome of the base credentials and of the
hub request. -/
theorem requests_cases (svc : Service) (input : SpokeCredentialsInput) :
    (GetSpokeCredentials svc input).requests =
      match input.Config.Credentials.Retrieve svc [] with
      | (.error _, pre) => pre
      | (.ok signer, pre) =>
        match svc.AssumeRole pre ⟨stsHubClient input, signer, hubParams svc input⟩ with
        | .error _ => pre ++ [⟨stsHubClient input, signer, hubParams svc input⟩]
        | .ok hub =>
          pre ++ [⟨stsHubClient input, signer, hubParams svc input⟩,
            ⟨stsSpokeClient input, stscreds.credentialsOf hub, assumeRoleInput input⟩] := by
  rw [requests_eq, spoke_call_eq]
  rcases input.Config.Credentials.Retrieve svc [] with ⟨e | signer, pre⟩
  · rfl
  · simp only []
    rcases svc.AssumeRole pre ⟨stsHubClient input, signer, hubParams svc input⟩ with e | hub
    · rfl
    · rfl

/-- Every request of a call was made while the base credentials were resolved,
or is the hub request, or is the spoke request signed with credentials issued
for the hub request. -/
theorem mem_requests (svc : Service) (input : SpokeCredentialsInput) (q : sts.Request)
    (hq : q ∈ (GetSpokeCredentials svc input).requests) :
    q ∈ (input.Config.Credentials.Retrieve svc []).2 ∨
    (∃ signer, (input.Config.Credentials.Retrieve svc []).1 = .ok signer ∧
      q = ⟨stsHubClient input, signer, hubParams svc input⟩) ∨
    (∃ signer hub, (input.Config.Credentials.Retrieve svc []).1 = .ok signer ∧
      svc.AssumeRole (input.Config.Credentials.Retrieve svc []).2
        ⟨stsHubClient input, signer, hubParams svc input⟩ = .ok hub ∧
      q = ⟨stsSpokeClient input, stscreds.credentialsOf hub, assumeRoleInput input⟩) := by
  rw [requests_cases] at hq
  rcases h : input.Config.Credentials.Retrieve svc [] with ⟨e | signer, pre⟩
  · rw [h] at hq
    exact Or.inl hq
  · rw [h] at hq
    simp only [] at hq
    rcases h2 : svc.AssumeRole pre ⟨stsHubClient input, signer, hubParams svc input⟩ with e | hub
    · rw [h2] at hq
      simp only [List.mem_append, List.mem_singleton] at hq
      rcases hq with hq | hq
      · exact Or.inl hq
      · exact Or.inr (Or.inl ⟨signer, rfl, hq⟩)
    · rw [h2] at hq
      simp only [List.mem_append, List.mem_cons, List.mem_singleton, List.not_mem_nil,
        or_false] at hq
      rcases hq with hq | hq | hq
      · exact Or.inl hq
      · exact Or.inr (Or.inl ⟨signer, rfl, hq⟩)
      · exact Or.inr (Or.inr ⟨signer, hub, rfl, h2, hq⟩)

/-- A request sent by the hub client is the hub request. -/
theorem params_of_hub (svc : Service) (input : SpokeCredentialsInput) (q : sts.Request)
    (hq : q ∈ (GetSpokeCredentials svc input).requests) (hc : q.client = stsHubClient input) :
    q.params = hubParams svc input := by
  rcases mem_requests svc input q hq with h | ⟨signer, _, h⟩ | ⟨signer, hub, _, _, h⟩
  · exact absurd hc (base_requests svc input q h).1
  · rw [h]
  · rw [h] at hc
    exact absurd hc.symm (stsHubClient_ne_stsSpokeClient input)

/-- A request sent by the spoke client is the spoke request. -/
theorem params_of_spoke (svc : Service) (input : SpokeCredentialsInput) (q : sts.Request)
    (hq : q ∈ (GetSpokeCredentials svc input).requests) (hc : q.client = stsSpokeClient input) :
    q.params = assumeRoleInput input := by
  rcases mem_requests svc input q hq with h | ⟨signer, _, h⟩ | ⟨signer, hub, _, _, h⟩
  · exact absurd hc (base_requests svc input q h).2
  · rw [h] at hc
    exact absurd hc (stsHubClient_ne_stsSpokeClient input)
  · rw [h]

/-- The requests of a call that the spoke client sent, when the base
credentials resolve and STS answers the hub request with `answer`. -/
theorem sentBy_spoke (svc : Service) (input : SpokeCredentialsInput) (base : aws.Credentials)
    (hb : (input.Config.Credentials.Retrieve svc []).1 = .ok base) :
    (GetSpokeCredentials svc input).sentBy (stsSpokeClient input) =
      match svc.AssumeRole (input.Config.Credentials.Retrieve svc []).2
        ⟨stsHubClient input, base, hubParams svc input⟩ with
      | .error _ => []
      | .ok hub => [⟨stsSpokeClient input, stscreds.credentialsOf hub, assumeRoleInput input⟩] := by
  have hf := filter_base_spoke svc input
  unfold Outcome.sentBy
  rw [requests_cases]
  rcases h : input.Config.Credentials.Retrieve svc [] with ⟨e | signer, pre⟩
  · rw [h] at hb
    cases hb
  · rw [h] at hb hf
    cases hb
    simp only [] at hf ⊢
    rcases svc.AssumeRole pre ⟨stsHubClient input, base, hubParams svc input⟩ with e | hub
    · simp [List.filter_append, hf, stsHubClient_ne_stsSpokeClient]
    · simp [List.filter_append, hf, stsHubClient_ne_stsSpokeClient, List.filter_cons]

/-- The requests of a call that the hub client sent, when the base credentials
resolve. -/
theorem sentBy_hub (svc : Service) (input : SpokeCredentialsInput) (base : aws.Credentials)
    (hb : (input.Config.Credentials.Retrieve svc []).1 = .ok base) :
    (GetSpokeCredentials svc input).sentBy (stsHubClient input)
      = [⟨stsHubClient input, base, hubParams svc input⟩] := by
  have hf := filter_base_hub svc input
  unfold Outcome.sentBy
  rw [requests_cases]
  rcases h : input.Config.Credentials.Retrieve svc [] with ⟨e | signer, pre⟩
  · rw [h] at hb
    cases hb
  · rw [h] at hb hf
    cases hb
    simp only [] at hf ⊢
    have hne : stsSpokeClient input ≠ stsHubClient input :=
      fun h => stsHubClient_ne_stsSpokeClient input h.symm
    rcases svc.AssumeRole pre ⟨stsHubClient input, base, hubParams svc input⟩ with e | hub
    · simp [List.filter_append, hf]
    · simp [List.filter_append, hf, hne, List.filter_cons]

/-- When the base credentials do not resolve, the requests of a call are those
made while resolving them: neither the hub nor the spoke client sends one. -/
theorem sentBy_of_base_error (svc : Service) (input : SpokeCredentialsInput) (cause : Error)
    (hb : (input.Config.Credentials.Retrieve svc []).1 = .error cause) :
    (GetSpokeCredentials svc input).sentBy (stsHubClient input) = [] ∧
    (GetSpokeCredentials svc input).sentBy (stsSpokeClient input) = [] := by
  have hf := filter_base_spoke svc input
  have hg := filter_base_hub svc input
  unfold Outcome.sentBy
  rw [requests_cases]
  rcases h : input.Config.Credentials.Retrieve svc [] with ⟨e | signer, pre⟩
  · rw [h] at hf hg
    exact ⟨hg, hf⟩
  · rw [h] at hb
    cases hb

/-- Outcome of a call when the base credentials do not resolve. -/
theorem outcome_base_error (svc : Service) (input : SpokeCredentialsInput) (cause : Error)
    (hb : (input.Config.Credentials.Retrieve svc []).1 = .error cause) :
    GetSpokeCredentials svc input =
      { credentials := {}
        config := aws.Config.zero
        err := some (.wrapped ("error assuming 'arn:aws:iam::" ++ input.SpokeAccountID ++ ":role/"
          ++ input.SpokeRoleName ++ "' role in account " ++ input.SpokeAccountID) cause)
        inputConfig := input.Config.setCredentials (hubCredentials input)
        requests := (input.Config.Credentials.Retrieve svc []).2 } := by
  apply outcome_of_error
  rw [spoke_call_eq]
  rcases h : input.Config.Credentials.Retrieve svc [] with ⟨e | signer, pre⟩
  · rw [h] at hb
    cases hb
    rfl
  · rw [h] at hb
    cases hb

/-- Outcome of a call when the hub request fails. -/
theorem outcome_hub_error (svc : Service) (input : SpokeCredentialsInput)
    (base : aws.Credentials) (cause : Error)
    (hb : (input.Config.Credentials.Retrieve svc []).1 = .ok base)
    (hh : svc.AssumeRole (input.Config.Credentials.Retrieve svc []).2
      ⟨stsHubClient input, base, hubParams svc input⟩ = .error cause) :
    GetSpokeCredentials svc input =
      { credentials := {}
        config := aws.Config.zero
        err := some (.wrapped ("error assuming 'arn:aws:iam::" ++ input.SpokeAccountID ++ ":role/"
          ++ input.SpokeRoleName ++ "' role in account " ++ input.SpokeAccountID) cause)
        inputConfig := input.Config.setCredentials (hubCredentials input)
        requests := (input.Config.Credentials.Retrieve svc []).2
          ++ [⟨stsHubClient input, base, hubParams svc input⟩] } := by
  apply outcome_of_error
  rw [spoke_call_eq]
  rcases h : input.Config.Credentials.Retrieve svc [] with ⟨e | signer, pre⟩
  · rw [h] at hb
    cases hb
  · rw [h] at hb hh
    cases hb
    simp only [] at hh ⊢
    rw [hh]

/-- Outcome of a call when the hub request succeeds and the spoke request
fails. -/
theorem outcome_spoke_error (svc : Service) (input : SpokeCredentialsInput)
    (base : aws.Credentials) (hub : sts.Issued) (cause : Error)
    (hb : (input.Config.Credentials.Retrieve svc []).1 = .ok base)
    (hh : svc.AssumeRole (input.Config.Credentials.Retrieve svc []).2
      ⟨stsHubClient input, base, hubParams svc input⟩ = .ok hub)
    (hs : svc.AssumeRole ((input.Config.Credentials.Retrieve svc []).2
        ++ [⟨stsHubClient input, base, hubParams svc input⟩])
      ⟨stsSpokeClient input, stscreds.credentialsOf hub, assumeRoleInput input⟩ = .error cause) :
    GetSpokeCredentials svc input =
      { credentials := {}
        config := aws.Config.zero
        err := some (.wrapped ("error assuming 'arn:aws:iam::" ++ input.SpokeAccountID ++ ":role/"
          ++ input.SpokeRoleName ++ "' role in account " ++ input.SpokeAccountID) cause)
        inputConfig := input.Config.setCredentials (hubCredentials input)
        requests := (input.Config.Credentials.Retrieve svc []).2
          ++ [⟨stsHubClient input, base, hubParams svc input⟩,
            ⟨stsSpokeClient input, stscreds.credentialsOf hub, assumeRoleInput input⟩] } := by
  apply outcome_of_error
  rw [spoke_call_eq]
  rcases h : input.Config.Credentials.Retrieve svc [] with ⟨e | signer, pre⟩
  · rw [h] at hb
    cases hb
  · rw [h] at hb hh hs
    cases hb
    simp only [] at hh hs ⊢
    rw [hh]
    simp only []
    rw [hs]

/-- Outcome of a call when both requests succeed. -/
theorem outcome_granted (svc : Service) (input : SpokeCredentialsInput)
    (base : aws.Credentials) (hub spoke : sts.Issued)
    (hb : (input.Config.Credentials.Retrieve svc []).1 = .ok base)
    (hh : svc.AssumeRole (input.Config.Credentials.Retrieve svc []).2
      ⟨stsHubClient input, base, hubParams svc input⟩ = .ok hub)
    (hs : svc.AssumeRole ((input.Config.Credentials.Retrieve svc []).2
        ++ [⟨stsHubClient input, base, hubParams svc input⟩])
      ⟨stsSpokeClient input, stscreds.credentialsOf hub, assumeRoleInput input⟩ = .ok spoke) :
    GetSpokeCredentials svc input =
      { credentials := spoke.Credentials
        config := (input.Config.setCredentials (hubCredentials input)).setCredentials
          (spokeCredentials input)
        err := none
        inputConfig := (input.Config.setCredentials (hubCredentials input)).setCredentials
          (spokeCredentials input)
        requests := (input.Config.Credentials.Retrieve svc []).2
          ++ [⟨stsHubClient input, base, hubParams svc input⟩,
            ⟨stsSpokeClient input, stscreds.credentialsOf hub, assumeRoleInput input⟩] } := by
  apply outcome_of_ok
  rw [spoke_call_eq]
  rcases h : input.Config.Credentials.Retrieve svc [] with ⟨e | signer, pre⟩
  · rw [h] at hb
    cases hb
  · rw [h] at hb hh hs
    cases hb
    simp only [] at hh hs ⊢
    rw [hh]
    simp only []
    rw [hs]

/-- The four ways a call can go. -/
theorem outcome_cases (svc : Service) (input : SpokeCredentialsInput) :
    (∃ cause, (input.Config.Credentials.Retrieve svc []).1 = .error cause) ∨
    (∃ base cause, (input.Config.Credentials.Retrieve svc []).1 = .ok base ∧
      svc.AssumeRole (input.Config.Credentials.Retrieve svc []).2
        ⟨stsHubClient input, base, hubParams svc input⟩ = .error cause) ∨
    (∃ base hub cause, (input.Config.Credentials.Retrieve svc []).1 = .ok base ∧
      svc.AssumeRole (input.Config.Credentials.Retrieve svc []).2
        ⟨stsHubClient input, base, hubParams svc input⟩ = .ok hub ∧
      svc.AssumeRole ((input.Config.Credentials.Retrieve svc []).2
          ++ [⟨stsHubClient input, base, hubParams svc input⟩])
        ⟨stsSpokeClient input, stscreds.credentialsOf hub, assumeRoleInput input⟩
          = .error cause) ∨
    (∃ base hub spoke, (input.Config.Credentials.Retrieve svc []).1 = .ok base ∧
      svc.AssumeRole (input.Config.Credentials.Retrieve svc []).2
        ⟨stsHubClient input, base, hubParams svc input⟩ = .ok hub ∧
      svc.AssumeRole ((input.Config.Credentials.Retrieve svc []).2
          ++ [⟨stsHubClient input, base, hubParams svc input⟩])
        ⟨stsSpokeClient input, stscreds.credentialsOf hub, assumeRoleInput input⟩
          = .ok spoke) := by
  rcases hb : (input.Config.Credentials.Retrieve svc []).1 with e | base
  · exact Or.inl ⟨e, rfl⟩
  · rcases hh : svc.AssumeRole (input.Config.Credentials.Retrieve svc []).2
      ⟨stsHubClient input, base, hubParams svc input⟩ with e | hub
    · exact Or.inr (Or.inl ⟨base, e, rfl, hh⟩)
    · rcases hs : svc.AssumeRole ((input.Config.Credentials.Retrieve svc []).2
          ++ [⟨stsHubClient input, base, hubParams svc input⟩])
        ⟨stsSpokeClient input, stscreds.credentialsOf hub, assumeRoleInput input⟩ with e | spoke
      · exact Or.inr (Or.inr (Or.inl ⟨base, hub, e, rfl, hh, hs⟩))
      · exact Or.inr (Or.inr (Or.inr ⟨base, hub, spoke, rfl, hh, hs⟩))

/-- The text of the error a failed call returns. -/
theorem wrapped_Message (input : SpokeCredentialsInput) (cause : Error) :
    (Error.wrapped ("error assuming 'arn:aws:iam::" ++ input.SpokeAccountID ++ ":role/"
      ++ input.SpokeRoleName ++ "' role in account " ++ input.SpokeAccountID) cause).Message
      = "error assuming '" ++ ("arn:aws:iam::" ++ input.SpokeAccountID ++ ":role/"
          ++ input.SpokeRoleName) ++ "' role in account " ++ input.SpokeAccountID ++ ": "
          ++ cause.Message := by
  rw [errors.Error.Message]
  apply String.ext
  simp [String.data_append]

theorem hubCredentials_depth (input : SpokeCredentialsInput) :
    (hubCredentials input).depth = input.Config.Credentials.depth + 1 := by
  rw [hubCredentials_eq, aws.CredentialsProvider.depth]
  rcases input with ⟨⟨region, retries, credentials⟩, ha, sa, hr, sr, ex, ss⟩
  simp [aws.Config.depth, aws.Config.Credentials]

theorem spokeCredentials_depth (input : SpokeCredentialsInput) :
    (spokeCredentials input).depth = input.Config.Credentials.depth + 2 := by
  unfold spokeCredentials stscreds.NewAssumeRoleProvider
  rw [aws.CredentialsProvider.depth, stsSpokeClient_depth]

theorem setCredentials_setCredentials (cfg : aws.Config) (p r : aws.CredentialsProvider) :
    (cfg.setCredentials p).setCredentials r = cfg.setCredentials r := by
  cases cfg
  rfl

/-- A call that returns no error has sent the hub request and the spoke
request, one each. -/
theorem sentBy_of_success (svc : Service) (input : SpokeCredentialsInput)
    (h : (GetSpokeCredentials svc input).err = none) :
    ((GetSpokeCredentials svc input).sentBy (stsHubClient input)).length = 1 ∧
    ((GetSpokeCredentials svc input).sentBy (stsSpokeClient input)).length = 1 := by
  rcases outcome_cases svc input with ⟨cause, hb⟩ | ⟨base, cause, hb, hh⟩ |
    ⟨base, hub, cause, hb, hh, hs⟩ | ⟨base, hub, spoke, hb, hh, hs⟩
  · rw [outcome_base_error svc input cause hb] at h
    cases h
  · rw [outcome_hub_error svc input base cause hb hh] at h
    cases h
  · rw [outcome_spoke_error svc input base hub cause hb hh hs] at h
    cases h
  · rw [sentBy_hub svc input base hb, sentBy_spoke svc input base hb, hh]
    exact ⟨rfl, rfl⟩

end hubspoke

/-! ## The claims -/

set_option maxRecDepth 100000

open hubspoke

/-- C1. For every request with non-empty hub and spoke account IDs and role
names, the provider `GetSpokeCredentials` installs for the hub hop targets
`arn:aws:iam::<hubAccountID>:role/<hubRoleName>`, the input of the spoke call
targets `arn:aws:iam::<spokeAccountID>:role/<spokeRoleName>`, and every request
STS receives from the hub client, respectively the spoke client, carries exactly
that role ARN. -/
theorem C1_role_arns (svc : Service) (input : SpokeCredentialsInput)
    (_hHubAccount : input.HubAccountID ≠ "") (_hHubRole : input.HubRoleName ≠ "")
    (_hSpokeAccount : input.SpokeAccountID ≠ "") (_hSpokeRole : input.SpokeRoleName ≠ "") :
    (∃ options, hubCredentials input = .assumeRole (stsHubClient input) options ∧
      options.RoleARN
        = "arn:aws:iam::" ++ input.HubAccountID ++ ":role/" ++ input.HubRoleName) ∧
    (assumeRoleInput input).RoleArn
      = some ("arn:aws:iam::" ++ input.SpokeAccountID ++ ":role/" ++ input.SpokeRoleName) ∧
    ∀ q ∈ (GetSpokeCredentials svc input).requests,
      (q.client = stsHubClient input → q.params.RoleArn
        = some ("arn:aws:iam::" ++ input.HubAccountID ++ ":role/" ++ input.HubRoleName)) ∧
      (q.client = stsSpokeClient input → q.params.RoleArn
        = some ("arn:aws:iam::" ++ input.SpokeAccountID ++ ":role/" ++ input.SpokeRoleName)) := by
  refine ⟨⟨_, hubCredentials_eq input, rfl⟩, by rw [assumeRoleInput_eq], ?_⟩
  intro q hq
  constructor
  · intro hc
    rw [params_of_hub svc input q hq hc, hubParams_eq]
  · intro hc
    rw [params_of_spoke svc input q hq hc, assumeRoleInput_eq]

/-- C1 at the end-to-end scenario: hub `999999999999/robot-hub-role`, spoke
`888888888888/robot-spoke-role`, both roles granted; the two requests carry the
two ARNs of the scenario. -/
theorem C1_role_arns_witness :
    Scenario.request.HubAccountID ≠ "" ∧ Scenario.request.HubRoleName ≠ "" ∧
    Scenario.request.SpokeAccountID ≠ "" ∧ Scenario.request.SpokeRoleName ≠ "" ∧
    (GetSpokeCredentials Scenario.granted Scenario.request).requests.map (fun q => q.params.RoleArn)
      = [some "arn:aws:iam::999999999999:role/robot-hub-role",
         some "arn:aws:iam::888888888888:role/robot-spoke-role"] ∧
    (assumeRoleInput Scenario.request).RoleArn
      = some ("arn:aws:iam::" ++ "888888888888" ++ ":role/" ++ "robot-spoke-role") ∧
    ∀ q ∈ (GetSpokeCredentials Scenario.granted Scenario.request).requests,
      (q.client = stsHubClient Scenario.request → q.params.RoleArn
        = some ("arn:aws:iam::" ++ "999999999999" ++ ":role/" ++ "robot-hub-role")) ∧
      (q.client = stsSpokeClient Scenario.request → q.params.RoleArn
        = some ("arn:aws:iam::" ++ "888888888888" ++ ":role/" ++ "robot-spoke-role")) :=
  ⟨by decide, by decide, by decide, by decide, by decide,
   (C1_role_arns Scenario.granted Scenario.request (by decide) (by decide) (by decide)
    (by decide)).2⟩

/-- C2. For every request the role-session name in the input of the spoke
`AssumeRole` call is `spokeAccountID ++ "-" ++ sessionString`, every request STS
receives from the spoke client carries that name, and with an empty session
string the name is the spoke account ID followed by a hyphen. -/
theorem C2_spoke_session_name (svc : Service) (input : SpokeCredentialsInput) :
    (assumeRoleInput input).RoleSessionName
      = some (input.SpokeAccountID ++ "-" ++ input.SessionString) ∧
    (∀ q ∈ (GetSpokeCredentials svc input).requests, q.client = stsSpokeClient input →
      q.params.RoleSessionName = some (input.SpokeAccountID ++ "-" ++ input.SessionString)) ∧
    (input.SessionString = "" →
      (assumeRoleInput input).RoleSessionName = some (input.SpokeAccountID ++ "-")) := by
  refine ⟨by rw [assumeRoleInput_eq], ?_, ?_⟩
  · intro q hq hc
    rw [params_of_spoke svc input q hq hc, assumeRoleInput_eq]
  · intro h
    rw [assumeRoleInput_eq, h]
    simp

/-- C2 at the end-to-end scenario (session name `888888888888-sess1` in the one
request of the spoke client) and at the same request with an empty session
string (`888888888888-`). -/
theorem C2_spoke_session_name_witness :
    ((GetSpokeCredentials Scenario.granted Scenario.request).sentBy
        (stsSpokeClient Scenario.request)).map (fun q => q.params.RoleSessionName)
      = [some "888888888888-sess1"] ∧
    (assumeRoleInput Scenario.request).RoleSessionName
      = some ("888888888888" ++ "-" ++ "sess1") ∧
    (assumeRoleInput { Scenario.request with SessionString := "" }).RoleSessionName
      = some ("888888888888" ++ "-") :=
  ⟨by decide, (C2_spoke_session_name Scenario.granted Scenario.request).1,
   (C2_spoke_session_name Scenario.granted { Scenario.request with SessionString := "" }).2.2 rfl⟩

/-- C3. For every request: with an empty `externalID` neither the options of
the hub provider nor the input of the spoke call has an external ID (the field
is `nil`), and no request STS receives from the hub or the spoke client carries
one; with a non-empty `externalID` both have exactly that value, and so has
every request from the hub or the spoke client. -/
theorem C3_external_id (svc : Service) (input : SpokeCredentialsInput) :
    (input.ExternalID = "" →
      (∃ options, hubCredentials input = .assumeRole (stsHubClient input) options ∧
        options.ExternalID = none) ∧
      (assumeRoleInput input).ExternalId = none ∧
      ∀ q ∈ (GetSpokeCredentials svc input).requests,
        q.client = stsHubClient input ∨ q.client = stsSpokeClient input →
          q.params.ExternalId = none) ∧
    (input.ExternalID ≠ "" →
      (∃ options, hubCredentials input = .assumeRole (stsHubClient input) options ∧
        options.ExternalID = some input.ExternalID) ∧
      (assumeRoleInput input).ExternalId = some input.ExternalID ∧
      ∀ q ∈ (GetSpokeCredentials svc input).requests,
        q.client = stsHubClient input ∨ q.client = stsSpokeClient input →
          q.params.ExternalId = some input.ExternalID) := by
  constructor
  · intro h
    refine ⟨⟨_, hubCredentials_eq input, by simp [h]⟩, by rw [assumeRoleInput_eq]; simp [h], ?_⟩
    rintro q hq (hc | hc)
    · rw [params_of_hub svc input q hq hc, hubParams_eq]
      simp [h]
    · rw [params_of_spoke svc input q hq hc, assumeRoleInput_eq]
      simp [h]
  · intro h
    refine ⟨⟨_, hubCredentials_eq input, by simp [h]⟩, by rw [assumeRoleInput_eq]; simp [h], ?_⟩
    rintro q hq (hc | hc)
    · rw [params_of_hub svc input q hq hc, hubParams_eq]
      simp [h]
    · rw [params_of_spoke svc input q hq hc, assumeRoleInput_eq]
      simp [h]

/-- C3 at the end-to-end scenarios: with external ID `this-is-my-robot` both
requests carry it, with an empty external ID neither request has the field. -/
theorem C3_external_id_witness :
    (GetSpokeCredentials Scenario.granted Scenario.request).requests.map
        (fun q => q.params.ExternalId)
      = [some "this-is-my-robot", some "this-is-my-robot"] ∧
    (GetSpokeCredentials Scenario.granted { Scenario.request with ExternalID := "" }).requests.map
        (fun q => q.params.ExternalId)
      = [none, none] ∧
    (assumeRoleInput Scenario.request).ExternalId = some "this-is-my-robot" ∧
    (assumeRoleInput { Scenario.request with ExternalID := "" }).ExternalId = none :=
  ⟨by decide, by decide,
   ((C3_external_id Scenario.granted Scenario.request).2 (by decide)).2.1,
   ((C3_external_id Scenario.granted { Scenario.request with ExternalID := "" }).1 rfl).2.1⟩

/-- C4, as the code has it. `GetSpokeCredentials` does not check the four
identifiers. For every request, also one with an empty identifier: when the base
credentials resolve and STS grants the hub and the spoke request the call
succeeds with the credentials of the spoke answer, and an error the call returns
is the failure of the `AssumeRole` operation wrapped with the message
`error assuming ...`, never an error about a missing parameter. The check for a
missing identifier is the one of the cobra `run` command: a flag whose
environment variable is empty and which does not occur on the command line makes
the command fail naming the flag, before `GetSpokeCredentials` is called and so
before any request. -/
theorem C4_identifiers_not_validated (svc : Service) (input : SpokeCredentialsInput) :
    (∀ base hub spoke, (input.Config.Credentials.Retrieve svc []).1 = .ok base →
      svc.AssumeRole (input.Config.Credentials.Retrieve svc []).2
        ⟨stsHubClient input, base, hubParams svc input⟩ = .ok hub →
      svc.AssumeRole ((input.Config.Credentials.Retrieve svc []).2
          ++ [⟨stsHubClient input, base, hubParams svc input⟩])
        ⟨stsSpokeClient input, stscreds.credentialsOf hub, assumeRoleInput input⟩ = .ok spoke →
      (GetSpokeCredentials svc input).err = none ∧
      (GetSpokeCredentials svc input).credentials = spoke.Credentials) ∧
    (∀ err, (GetSpokeCredentials svc input).err = some err →
      ∃ cause log,
        sts.Client.AssumeRole svc (stsSpokeClient input) (assumeRoleInput input) []
          = (.error cause, log) ∧
        err = .wrapped ("error assuming 'arn:aws:iam::" ++ input.SpokeAccountID ++ ":role/"
          ++ input.SpokeRoleName ++ "' role in account " ++ input.SpokeAccountID) cause) ∧
    (∀ (awsConfig : Except Error aws.Config) (environ : List String) (d : cmd.Defaults)
        (c : cmd.CommandLine),
      (d.hubAccount = "" ∧ c.hubAccount = none → "hub-account" ∈ cmd.missingFlags d c) ∧
      (d.hubRole = "" ∧ c.hubRole = none → "hub-role" ∈ cmd.missingFlags d c) ∧
      (d.spokeAccount = "" ∧ c.spokeAccount = none → "spoke-account" ∈ cmd.missingFlags d c) ∧
      (d.spokeRole = "" ∧ c.spokeRole = none → "spoke-role" ∈ cmd.missingFlags d c) ∧
      (cmd.missingFlags d c ≠ [] →
        cmd.Execute svc awsConfig environ d c
          = .usage (.foreign ("required flag(s) \"" ++ String.intercalate "\", \""
              (cmd.missingFlags d c) ++ "\" not set")))) := by
  refine ⟨?_, ?_, ?_⟩
  · intro base hub spoke hb hh hs
    rw [outcome_granted svc input base hub spoke hb hh hs]
    exact ⟨rfl, rfl⟩
  · intro err herr
    rcases h : sts.Client.AssumeRole svc (stsSpokeClient input) (assumeRoleInput input) []
      with ⟨cause | response, log⟩
    · rw [outcome_of_error svc input cause log h] at herr
      exact ⟨cause, log, rfl, (Option.some.inj herr).symm⟩
    · rw [outcome_of_ok svc input response log h] at herr
      cases herr
  · intro awsConfig environ d c
    refine ⟨?_, ?_, ?_, ?_, ?_⟩
    · rintro ⟨h1, h2⟩
      simp [cmd.missingFlags, cmd.requiredFlags, cmd.CommandLine.given, h1, h2]
    · rintro ⟨h1, h2⟩
      simp [cmd.missingFlags, cmd.requiredFlags, cmd.CommandLine.given, h1, h2]
    · rintro ⟨h1, h2⟩
      simp [cmd.missingFlags, cmd.requiredFlags, cmd.CommandLine.given, h1, h2]
    · rintro ⟨h1, h2⟩
      simp [cmd.missingFlags, cmd.requiredFlags, cmd.CommandLine.given, h1, h2]
    · intro h
      simp [cmd.Execute, h]

/-- C4 at the end-to-end scenario without a hub account: `GetSpokeCredentials`
succeeds on the request with an empty hub account ID; the command line without
the flag, with no variable set, is refused by cobra naming the flag. -/
theorem C4_identifiers_not_validated_witness :
    (GetSpokeCredentials Scenario.granted Scenario.requestNoHubAccount).err = none ∧
    "hub-account" ∈ cmd.missingFlags Scenario.noDefaults Scenario.lineNoHubAccount ∧
    cmd.Execute Scenario.granted (.ok Scenario.config) [] Scenario.noDefaults
        Scenario.lineNoHubAccount
      = .usage (.foreign "required flag(s) \"hub-account\" not set") :=
  ⟨((C4_identifiers_not_validated Scenario.granted Scenario.requestNoHubAccount).1
      Scenario.baseCredentials Scenario.hubIssued Scenario.spokeIssued rfl rfl rfl).1,
   ((C4_identifiers_not_validated Scenario.granted Scenario.requestNoHubAccount).2.2
      (.ok Scenario.config) [] Scenario.noDefaults Scenario.lineNoHubAccount).1 ⟨rfl, rfl⟩,
   by decide⟩

/-- C4 as stated fails: the request of the end-to-end scenario with an empty
hub account ID, sent to a service that grants both roles, makes both requests
(the hub request for the role ARN `arn:aws:iam:::role/robot-hub-role`) and
returns the spoke credentials without an error. -/
theorem C4_counterexample :
    Scenario.requestNoHubAccount.HubAccountID = "" ∧
    (GetSpokeCredentials Scenario.granted Scenario.requestNoHubAccount).err = none ∧
    (GetSpokeCredentials Scenario.granted Scenario.requestNoHubAccount).credentials
      = Scenario.spokeIssued.Credentials ∧
    (GetSpokeCredentials Scenario.granted Scenario.requestNoHubAccount).requests.map
        (fun q => q.params.RoleArn)
      = [some "arn:aws:iam:::role/robot-hub-role",
         some "arn:aws:iam::888888888888:role/robot-spoke-role"] :=
  ⟨rfl, by decide, by decide, by decide⟩

/-- C5, as the code has it. For every request in which the hub request fails,
`GetSpokeCredentials` returns empty credentials, an empty configuration and the
underlying failure wrapped with its one message, `error assuming
'<spoke role ARN>' role in account <spokeAccountID>`: the context of the error
is the spoke role ARN and the spoke account ID, the same as for a failure of the
spoke request. -/
theorem C5_hub_failure_wrapped (svc : Service) (input : SpokeCredentialsInput)
    (base : aws.Credentials) (cause : Error)
    (hb : (input.Config.Credentials.Retrieve svc []).1 = .ok base)
    (hh : svc.AssumeRole (input.Config.Credentials.Retrieve svc []).2
      ⟨stsHubClient input, base, hubParams svc input⟩ = .error cause) :
    (GetSpokeCredentials svc input).err
      = some (.wrapped ("error assuming 'arn:aws:iam::" ++ input.SpokeAccountID ++ ":role/"
          ++ input.SpokeRoleName ++ "' role in account " ++ input.SpokeAccountID) cause) ∧
    ((GetSpokeCredentials svc input).err.bind errors.Unwrap) = some cause ∧
    (GetSpokeCredentials svc input).credentials = {} ∧
    (GetSpokeCredentials svc input).config = aws.Config.zero := by
  rw [outcome_hub_error svc input base cause hb hh]
  exact ⟨rfl, rfl, rfl, rfl⟩

/-- C5 at the end-to-end scenario with the hub role denied. -/
theorem C5_hub_failure_wrapped_witness :
    (GetSpokeCredentials Scenario.hubDenied Scenario.request).err
      = some (.wrapped ("error assuming 'arn:aws:iam::" ++ "888888888888" ++ ":role/"
          ++ "robot-spoke-role" ++ "' role in account " ++ "888888888888")
          (.foreign "AccessDenied")) :=
  (C5_hub_failure_wrapped Scenario.hubDenied Scenario.request Scenario.baseCredentials
    (.foreign "AccessDenied") rfl rfl).1

/-- C5 as stated fails: in the end-to-end scenario with the hub role denied
(the hub request is the only request and STS answers it with `AccessDenied`),
the error returned is the failure wrapped with the spoke message, and neither
the hub role ARN nor the hub account ID occurs in its text. -/
theorem C5_counterexample :
    Scenario.hubDenied.AssumeRole []
        ⟨stsHubClient Scenario.request, Scenario.baseCredentials,
          hubParams Scenario.hubDenied Scenario.request⟩
      = .error (.foreign "AccessDenied") ∧
    (GetSpokeCredentials Scenario.hubDenied Scenario.request).requests
      = [⟨stsHubClient Scenario.request, Scenario.baseCredentials,
          hubParams Scenario.hubDenied Scenario.request⟩] ∧
    (GetSpokeCredentials Scenario.hubDenied Scenario.request).err
      = some (.wrapped
          "error assuming 'arn:aws:iam::888888888888:role/robot-spoke-role' role in account 888888888888"
          (.foreign "AccessDenied")) ∧
    ((GetSpokeCredentials Scenario.hubDenied Scenario.request).err.map fun e =>
        decide (Mentions e.Message "arn:aws:iam::999999999999:role/robot-hub-role"))
      = some false ∧
    ((GetSpokeCredentials Scenario.hubDenied Scenario.request).err.map fun e =>
        decide (Mentions e.Message "999999999999"))
      = some false :=
  ⟨rfl, by decide, by decide, by decide, by decide⟩

/-- C6. For every request: a request STS receives from the spoke client is
signed with the credentials STS issued in answer to the hub request, which was
sent before and succeeded (the base credentials sign the hub request only); when
the hub request fails the spoke client sends no request; when it succeeds the
spoke client sends exactly one; and when the base credentials cannot be resolved
neither client sends a request. -/
theorem C6_spoke_uses_hub_credentials (svc : Service) (input : SpokeCredentialsInput) :
    (∀ q ∈ (GetSpokeCredentials svc input).requests, q.client = stsSpokeClient input →
      ∃ base hub, (input.Config.Credentials.Retrieve svc []).1 = .ok base ∧
        svc.AssumeRole (input.Config.Credentials.Retrieve svc []).2
          ⟨stsHubClient input, base, hubParams svc input⟩ = .ok hub ∧
        (GetSpokeCredentials svc input).sentBy (stsHubClient input)
          = [⟨stsHubClient input, base, hubParams svc input⟩] ∧
        q.signer = stscreds.credentialsOf hub) ∧
    (∀ base cause, (input.Config.Credentials.Retrieve svc []).1 = .ok base →
      svc.AssumeRole (input.Config.Credentials.Retrieve svc []).2
        ⟨stsHubClient input, base, hubParams svc input⟩ = .error cause →
      ((GetSpokeCredentials svc input).sentBy (stsSpokeClient input)).length = 0) ∧
    (∀ base hub, (input.Config.Credentials.Retrieve svc []).1 = .ok base →
      svc.AssumeRole (input.Config.Credentials.Retrieve svc []).2
        ⟨stsHubClient input, base, hubParams svc input⟩ = .ok hub →
      (GetSpokeCredentials svc input).sentBy (stsSpokeClient input)
        = [⟨stsSpokeClient input, stscreds.credentialsOf hub, assumeRoleInput input⟩]) ∧
    (∀ cause, (input.Config.Credentials.Retrieve svc []).1 = .error cause →
      ((GetSpokeCredentials svc input).sentBy (stsHubClient input)).length = 0 ∧
      ((GetSpokeCredentials svc input).sentBy (stsSpokeClient input)).length = 0) := by
  refine ⟨?_, ?_, ?_, ?_⟩
  · intro q hq hc
    rcases mem_requests svc input q hq with h | ⟨signer, _, h⟩ | ⟨signer, hub, hb, hh, h⟩
    · exact absurd hc (base_requests svc input q h).2
    · rw [h] at hc
      exact absurd hc (stsHubClient_ne_stsSpokeClient input)
    · exact ⟨signer, hub, hb, hh, sentBy_hub svc input signer hb, by rw [h]⟩
  · intro base cause hb hh
    rw [sentBy_spoke svc input base hb, hh]
    rfl
  · intro base hub hb hh
    rw [sentBy_spoke svc input base hb, hh]
  · intro cause hb
    obtain ⟨h1, h2⟩ := sentBy_of_base_error svc input cause hb
    rw [h1, h2]
    exact ⟨rfl, rfl⟩

/-- C6 at the end-to-end scenario with the hub role denied: STS receives the
hub request, signed with the base credentials, and nothing from the spoke
client. -/
theorem C6_spoke_uses_hub_credentials_witness :
    (GetSpokeCredentials Scenario.hubDenied Scenario.request).requests.map (fun q => q.signer)
      = [Scenario.baseCredentials] ∧
    ((GetSpokeCredentials Scenario.hubDenied Scenario.request).sentBy
      (stsSpokeClient Scenario.request)).length = 0 ∧
    (GetSpokeCredentials Scenario.granted Scenario.request).requests.map (fun q => q.signer)
      = [Scenario.baseCredentials, stscreds.credentialsOf Scenario.hubIssued] :=
  ⟨by decide,
   (C6_spoke_uses_hub_credentials Scenario.hubDenied Scenario.request).2.1
     Scenario.baseCredentials (.foreign "AccessDenied") rfl rfl,
   by decide⟩

/-- C7. For every request in which the hub request succeeds and the spoke
request fails, `GetSpokeCredentials` returns a non-nil error that wraps the
underlying failure and whose text contains the spoke role ARN and the spoke
account ID. -/
theorem C7_spoke_failure_wrapped (svc : Service) (input : SpokeCredentialsInput)
    (base : aws.Credentials) (hub : sts.Issued) (cause : Error)
    (hb : (input.Config.Credentials.Retrieve svc []).1 = .ok base)
    (hh : svc.AssumeRole (input.Config.Credentials.Retrieve svc []).2
      ⟨stsHubClient input, base, hubParams svc input⟩ = .ok hub)
    (hs : svc.AssumeRole ((input.Config.Credentials.Retrieve svc []).2
        ++ [⟨stsHubClient input, base, hubParams svc input⟩])
      ⟨stsSpokeClient input, stscreds.credentialsOf hub, assumeRoleInput input⟩ = .error cause) :
    ∃ err, (GetSpokeCredentials svc input).err = some err ∧
      errors.Unwrap err = some cause ∧
      Mentions err.Message
        ("arn:aws:iam::" ++ input.SpokeAccountID ++ ":role/" ++ input.SpokeRoleName) ∧
      Mentions err.Message input.SpokeAccountID := by
  rw [outcome_spoke_error svc input base hub cause hb hh hs]
  refine ⟨_, rfl, rfl, ?_, ?_⟩
  · rw [wrapped_Message]
    have h := Mentions_middle "error assuming '"
      ("arn:aws:iam::" ++ input.SpokeAccountID ++ ":role/" ++ input.SpokeRoleName)
      ("' role in account " ++ input.SpokeAccountID ++ ": " ++ cause.Message)
    simpa [String.append_assoc] using h
  · rw [wrapped_Message]
    have h := Mentions_middle ("error assuming '" ++ ("arn:aws:iam::" ++ input.SpokeAccountID
      ++ ":role/" ++ input.SpokeRoleName) ++ "' role in account ")
      input.SpokeAccountID (": " ++ cause.Message)
    simpa [String.append_assoc] using h

/-- C7 at the end-to-end scenario with the spoke role denied. -/
theorem C7_spoke_failure_wrapped_witness :
    (GetSpokeCredentials Scenario.spokeDenied Scenario.request).err
      = some (.wrapped
          "error assuming 'arn:aws:iam::888888888888:role/robot-spoke-role' role in account 888888888888"
          (.foreign "AccessDenied")) ∧
    ∃ err, (GetSpokeCredentials Scenario.spokeDenied Scenario.request).err = some err ∧
      errors.Unwrap err = some (.foreign "AccessDenied") ∧
      Mentions err.Message ("arn:aws:iam::" ++ "888888888888" ++ ":role/" ++ "robot-spoke-role") ∧
      Mentions err.Message "888888888888" :=
  ⟨by decide,
   C7_spoke_failure_wrapped Scenario.spokeDenied Scenario.request Scenario.baseCredentials
    Scenario.hubIssued (.foreign "AccessDenied") rfl rfl rfl⟩

/-- C8, as the code has it. For every request `GetSpokeCredentials` overwrites
the credentials provider of the configuration the caller supplied and leaves its
region and retry budget as they were: after a failed call the configuration
holds the hub assume-role provider (built over a client that holds the base
provider), after a successful call the spoke assume-role provider, and that
configuration is the one returned; in neither case does it hold the base
provider. A failed call returns empty credentials and an empty configuration. -/
theorem C8_input_config_overwritten (svc : Service) (input : SpokeCredentialsInput) :
    ((GetSpokeCredentials svc input).err ≠ none →
      (GetSpokeCredentials svc input).inputConfig
        = input.Config.setCredentials (hubCredentials input) ∧
      (GetSpokeCredentials svc input).credentials = {} ∧
      (GetSpokeCredentials svc input).config = aws.Config.zero) ∧
    ((GetSpokeCredentials svc input).err = none →
      (GetSpokeCredentials svc input).inputConfig
        = input.Config.setCredentials (spokeCredentials input) ∧
      (GetSpokeCredentials svc input).config = (GetSpokeCredentials svc input).inputConfig) ∧
    (GetSpokeCredentials svc input).inputConfig.Region = input.Config.Region ∧
    (GetSpokeCredentials svc input).inputConfig.RetryMaxAttempts
      = input.Config.RetryMaxAttempts ∧
    (GetSpokeCredentials svc input).inputConfig.Credentials ≠ input.Config.Credentials := by
  have hne1 : hubCredentials input ≠ input.Config.Credentials := by
    intro h
    have := congrArg aws.CredentialsProvider.depth h
    rw [hubCredentials_depth] at this
    omega
  have hne2 : spokeCredentials input ≠ input.Config.Credentials := by
    intro h
    have := congrArg aws.CredentialsProvider.depth h
    rw [spokeCredentials_depth] at this
    omega
  rcases h : sts.Client.AssumeRole svc (stsSpokeClient input) (assumeRoleInput input) []
    with ⟨cause | response, log⟩
  · rw [outcome_of_error svc input cause log h]
    refine ⟨?_, ?_, ?_, ?_, ?_⟩
    · intro _
      exact ⟨rfl, rfl, rfl⟩
    · intro h
      cases h
    · cases input.Config
      rfl
    · cases input.Config
      rfl
    · cases hc : input.Config
      rw [hc] at hne1
      exact hne1
  · rw [outcome_of_ok svc input response log h, setCredentials_setCredentials]
    refine ⟨?_, ?_, ?_, ?_, ?_⟩
    · intro h
      exact absurd rfl h
    · intro _
      exact ⟨rfl, rfl⟩
    · cases input.Config
      rfl
    · cases input.Config
      rfl
    · cases hc : input.Config
      rw [hc] at hne2
      exact hne2

/-- C8 at the end-to-end scenario with the spoke role denied: the caller's
configuration holds the hub provider after the call. -/
theorem C8_input_config_overwritten_witness :
    (GetSpokeCredentials Scenario.spokeDenied Scenario.request).err ≠ none ∧
    (GetSpokeCredentials Scenario.spokeDenied Scenario.request).inputConfig
      = Scenario.request.Config.setCredentials (hubCredentials Scenario.request) :=
  ⟨by decide,
   ((C8_input_config_overwritten Scenario.spokeDenied Scenario.request).1 (by decide)).1⟩

/-- C8 as stated fails: in the end-to-end scenario with the spoke role denied,
the caller's configuration held the base provider before the call and holds the
hub assume-role provider after it, and a retrieval from the caller's
configuration then yields the credentials STS issued for the hub role. The
provider is replaced after a successful call as well. -/
theorem C8_counterexample :
    Scenario.request.Config.Credentials = .base "environment" ∧
    (GetSpokeCredentials Scenario.spokeDenied Scenario.request).err ≠ none ∧
    (GetSpokeCredentials Scenario.spokeDenied Scenario.request).inputConfig.Credentials
      = .assumeRole (.mk "us-east-1" 3 (.base "environment"))
          { RoleARN := "arn:aws:iam::999999999999:role/robot-hub-role"
            RoleSessionName := "sess1"
            Duration := 0
            ExternalID := some "this-is-my-robot" } ∧
    decide ((GetSpokeCredentials Scenario.spokeDenied Scenario.request).inputConfig.Credentials
      = Scenario.request.Config.Credentials) = false ∧
    ((GetSpokeCredentials Scenario.spokeDenied Scenario.request).inputConfig.Credentials.Retrieve
        Scenario.spokeDenied []).1
      = .ok (stscreds.credentialsOf Scenario.hubIssued) ∧
    decide ((GetSpokeCredentials Scenario.granted Scenario.request).inputConfig.Credentials
      = Scenario.request.Config.Credentials) = false :=
  ⟨rfl, by decide, by decide, by decide, rfl, by decide⟩

/-- C9. For every parent environment, every credential set (access key ID,
secret access key, session token, expiration) and every non-empty argument list,
`runCommand` gives the command the parent environment followed by five entries,
so that in the subprocess `AWS_ACCESS_KEY_ID` is the access key ID,
`AWS_SECRET_ACCESS_KEY` the secret access key, `AWS_SECURITY_TOKEN` and
`AWS_SESSION_TOKEN` the session token, `AWS_SESSION_EXPIRATION` the text of the
expiration, whatever the parent had for these names, and every other variable is
as in the parent. -/
theorem C9_subprocess_environment (environ : List String)
    (accessKeyId secretAccessKey sessionToken : String) (expiration : time.Time)
    (name : String) (arg : List String) :
    ∃ c, cmd.runCommand environ
        { AccessKeyId := some accessKeyId, Expiration := some expiration,
          SecretAccessKey := some secretAccessKey, SessionToken := some sessionToken }
        (name :: arg) = .ok c ∧
      c.Env = environ ++
        ["AWS_ACCESS_KEY_ID" ++ "=" ++ accessKeyId,
         "AWS_SECRET_ACCESS_KEY" ++ "=" ++ secretAccessKey,
         "AWS_SECURITY_TOKEN" ++ "=" ++ sessionToken,
         "AWS_SESSION_TOKEN" ++ "=" ++ sessionToken,
         "AWS_SESSION_EXPIRATION" ++ "=" ++ expiration.String] ∧
      exec.Getenv c.Env "AWS_ACCESS_KEY_ID" = some accessKeyId ∧
      exec.Getenv c.Env "AWS_SECRET_ACCESS_KEY" = some secretAccessKey ∧
      exec.Getenv c.Env "AWS_SECURITY_TOKEN" = some sessionToken ∧
      exec.Getenv c.Env "AWS_SESSION_TOKEN" = some sessionToken ∧
      exec.Getenv c.Env "AWS_SESSION_EXPIRATION" = some expiration.String ∧
      ∀ key : String,
        key ∉ ["AWS_ACCESS_KEY_ID", "AWS_SECRET_ACCESS_KEY", "AWS_SECURITY_TOKEN",
          "AWS_SESSION_TOKEN", "AWS_SESSION_EXPIRATION"] →
        exec.Getenv c.Env key = exec.Getenv environ key := by
  have hget : ∀ key : String,
      exec.Getenv (environ ++
        ["AWS_ACCESS_KEY_ID" ++ "=" ++ accessKeyId,
         "AWS_SECRET_ACCESS_KEY" ++ "=" ++ secretAccessKey,
         "AWS_SECURITY_TOKEN" ++ "=" ++ sessionToken,
         "AWS_SESSION_TOKEN" ++ "=" ++ sessionToken,
         "AWS_SESSION_EXPIRATION" ++ "=" ++ expiration.String]) key
      = ((((((none : Option String).or
            (if "AWS_SESSION_EXPIRATION" = key then some expiration.String else none)).or
            (if "AWS_SESSION_TOKEN" = key then some sessionToken else none)).or
            (if "AWS_SECURITY_TOKEN" = key then some sessionToken else none)).or
            (if "AWS_SECRET_ACCESS_KEY" = key then some secretAccessKey else none)).or
            (if "AWS_ACCESS_KEY_ID" = key then some accessKeyId else none)).or
          (exec.Getenv environ key) := by
    intro key
    rw [exec.Getenv_append]
    simp only [exec.Getenv_cons]
    rw [exec.entryValue_entry _ _ _ (by decide), exec.entryValue_entry _ _ _ (by decide),
      exec.entryValue_entry _ _ _ (by decide), exec.entryValue_entry _ _ _ (by decide),
      exec.entryValue_entry _ _ _ (by decide)]
    rfl
  refine ⟨_, rfl, ?_, ?_⟩
  · simp only [exec.Command, fmt.Sprintf_access_key, fmt.Sprintf_secret_key,
      fmt.Sprintf_security_token, fmt.Sprintf_session_token, fmt.Sprintf_session_expiration]
  · simp only [exec.Command, fmt.Sprintf_access_key, fmt.Sprintf_secret_key,
      fmt.Sprintf_security_token, fmt.Sprintf_session_token, fmt.Sprintf_session_expiration]
    refine ⟨?_, ?_, ?_, ?_, ?_, ?_⟩
    · rw [hget]; simp
    · rw [hget]; simp
    · rw [hget]; simp
    · rw [hget]; simp
    · rw [hget]; simp
    · intro key hv
      simp only [List.mem_cons, List.mem_singleton, List.not_mem_nil, or_false, not_or] at hv
      obtain ⟨h1, h2, h3, h4, h5⟩ := hv
      rw [hget]
      simp [Ne.symm h1, Ne.symm h2, Ne.symm h3, Ne.symm h4, Ne.symm h5]

/-- C10. `runCommand` fails with an index out of range (index 0, length 0)
exactly when its argument list is empty: for the empty list it fails on
`args[0]`; for a non-empty list and a complete credential set it runs `args[0]`
with the arguments `args[1:]`. The empty list is reached from the `run` command:
when `GetSpokeCredentials` has succeeded and no argument follows the flags, `Run`
ends in that panic, after the hub request and the spoke request were made. -/
theorem C10_index_out_of_range (environ : List String) (creds : types.Credentials)
    (args : List String) :
    (cmd.runCommand environ creds args = .error (.indexOutOfRange 0 0) ↔ args = []) ∧
    (∀ (accessKeyId secretAccessKey sessionToken : String) (expiration : time.Time)
        (name : String) (arg : List String),
      creds = { AccessKeyId := some accessKeyId, Expiration := some expiration,
                SecretAccessKey := some secretAccessKey, SessionToken := some sessionToken } →
      args = name :: arg →
      ∃ c, cmd.runCommand environ creds args = .ok c ∧ c.Path = name ∧ c.Args = name :: arg) ∧
    (∀ (svc : Service) (config : aws.Config) (f : cmd.Flags),
      (GetSpokeCredentials svc
        { Config := config, HubAccountID := f.fHubAccount, SpokeAccountID := f.fSpokeAccount,
          HubRoleName := f.fHubRole, SpokeRoleName := f.fSpokeRole,
          ExternalID := f.fExternalID, SessionString := f.fSessionString }).err = none →
      cmd.Run svc (.ok config) environ f []
        = .panicked (.indexOutOfRange 0 0)
            (GetSpokeCredentials svc
              { Config := config, HubAccountID := f.fHubAccount,
                SpokeAccountID := f.fSpokeAccount, HubRoleName := f.fHubRole,
                SpokeRoleName := f.fSpokeRole, ExternalID := f.fExternalID,
                SessionString := f.fSessionString }).requests ∧
      ((GetSpokeCredentials svc
        { Config := config, HubAccountID := f.fHubAccount, SpokeAccountID := f.fSpokeAccount,
          HubRoleName := f.fHubRole, SpokeRoleName := f.fSpokeRole,
          ExternalID := f.fExternalID, SessionString := f.fSessionString }).sentBy
        (stsHubClient
          { Config := config, HubAccountID := f.fHubAccount, SpokeAccountID := f.fSpokeAccount,
            HubRoleName := f.fHubRole, SpokeRoleName := f.fSpokeRole,
            ExternalID := f.fExternalID, SessionString := f.fSessionString })).length = 1 ∧
      ((GetSpokeCredentials svc
        { Config := config, HubAccountID := f.fHubAccount, SpokeAccountID := f.fSpokeAccount,
          HubRoleName := f.fHubRole, SpokeRoleName := f.fSpokeRole,
          ExternalID := f.fExternalID, SessionString := f.fSessionString }).sentBy
        (stsSpokeClient
          { Config := config, HubAccountID := f.fHubAccount, SpokeAccountID := f.fSpokeAccount,
            HubRoleName := f.fHubRole, SpokeRoleName := f.fSpokeRole,
            ExternalID := f.fExternalID, SessionString := f.fSessionString })).length = 1) := by
  refine ⟨⟨?_, ?_⟩, ?_, ?_⟩
  · intro h
    cases args with
    | nil => rfl
    | cons name arg =>
      exfalso
      rcases creds with ⟨_ | a, _ | e, _ | b, _ | t⟩ <;> simp [cmd.runCommand] at h
  · intro h
    rw [h]
    rfl
  · intro accessKeyId secretAccessKey sessionToken expiration name arg hc ha
    rw [hc, ha]
    exact ⟨_, rfl, rfl, rfl⟩
  · intro svc config f h
    refine ⟨?_, sentBy_of_success svc _ h⟩
    simp only [cmd.Run, h, cmd.runCommand]

/-- C10 at the end-to-end scenario: with no command after the flags the `run`
command panics after STS has received both requests; `runCommand` on
`aws sts get-caller-identity` runs `aws` with the whole list as its arguments. -/
theorem C10_index_out_of_range_witness :
    cmd.Execute Scenario.granted (.ok Scenario.config) [] Scenario.noDefaults Scenario.lineNoCommand
      = .panicked (.indexOutOfRange 0 0)
          (GetSpokeCredentials Scenario.granted Scenario.request).requests ∧
    (GetSpokeCredentials Scenario.granted Scenario.request).requests.length = 2 ∧
    (cmd.runCommand [] Scenario.spokeIssued.Credentials [] = .error (.indexOutOfRange 0 0)
      ↔ ([] : List String) = []) ∧
    ∃ c, cmd.runCommand [] Scenario.spokeIssued.Credentials ["aws", "sts", "get-caller-identity"]
        = .ok c ∧ c.Path = "aws" ∧ c.Args = ["aws", "sts", "get-caller-identity"] :=
  ⟨by decide, by decide,
   (C10_index_out_of_range [] Scenario.spokeIssued.Credentials []).1,
   (C10_index_out_of_range [] Scenario.spokeIssued.Credentials
      ["aws", "sts", "get-caller-identity"]).2.1 _ _ _ _ _ _ rfl rfl⟩

end AssumeSpokeRole
